import Mathlib

/-!
Shallow embedding of `src/components/views/settings/SecureBackupPanel.tsx`
(matrix-react-sdk): the secure-backup status panel.  The component state
(`IState`), the per-signature trust classification performed in `render`,
the derived action buttons, and the asynchronous refresh / operation
continuations are translated into pure Lean functions.  External service
calls (matrix-js-sdk, secret storage, dialogs) are modelled as explicit
inputs: each asynchronous continuation takes the value the awaited call
resolved or rejected with, together with the `unmounted` flag as it stands
when the continuation runs.
-/

namespace SecureBackupPanel

/-- Error payloads (`catch (e)`) are opaque to the panel; we identify them by
a string tag. -/
abbrev ErrorInfo := String

/-- Backup metadata (`IKeyBackupInfo`): the fields the panel reads. -/
structure BackupInfo where
  version : String
  algorithm : String
deriving DecidableEq, Repr

/-- A device record as used by the panel: `sig.device` with its
`getDisplayName()` result, `deviceId`, and `getFingerprint()` result. -/
structure DeviceRef where
  deviceId : String
  displayName : Option String
  fingerprint : String
deriving DecidableEq, Repr

/-- One element of `backupSigStatus.sigs` as read by `render`:
`deviceId`, optional `device`, optional `crossSigningId`, `valid`, and the
result of `sig.deviceTrust.isVerified()` (only consulted when `device` is
present). -/
structure Sig where
  deviceId : String
  device : Option DeviceRef
  crossSigningId : Option String
  valid : Bool
  deviceVerified : Bool
deriving DecidableEq, Repr

/-- `TrustInfo` as read by the panel: `sigs` and `trusted_locally`. -/
structure TrustInfo where
  sigs : List Sig
  trusted_locally : Bool
deriving DecidableEq, Repr

/-- The component state `IState`.  TypeScript fields initialised to `null`
and later assigned booleans are modelled as `Option Bool`; `error` is a
nullable error object; `backupInfo` and `backupSigStatus` are nullable. -/
structure Snapshot where
  loading : Bool
  error : Option ErrorInfo
  backupKeyStored : Option Bool
  backupKeyCached : Option Bool
  backupKeyWellFormed : Option Bool
  secretStorageKeyInAccount : Option Bool
  secretStorageReady : Option Bool
  backupInfo : Option BackupInfo
  backupSigStatus : Option TrustInfo
  sessionsRemaining : Nat
deriving DecidableEq, Repr

/-- The state set up by the constructor. -/
def initialState : Snapshot where
  loading := true
  error := none
  backupKeyStored := none
  backupKeyCached := none
  backupKeyWellFormed := none
  secretStorageKeyInAccount := none
  secretStorageReady := none
  backupInfo := none
  backupSigStatus := none
  sessionsRemaining := 0

/-! ## Signature classification (the `sigStatus` if/else chain in `render`) -/

/-- The trust category a single signature is classified into; one
constructor per `sigStatus` branch of `render`, plus `undefinedSigStatus`
for the (unreached) case where no branch assigns `sigStatus`. -/
inductive SigStatus where
  | validFromThisUser
  | invalidFromThisUser
  | fromUnknownUser (deviceId : String)
  | fromUnknownSession (deviceId : String)
  | validFromThisSession
  | invalidFromThisSession
  | validFromVerifiedSession (deviceName : Option String)
  | validFromUnverifiedSession (deviceName : Option String)
  | invalidFromVerifiedSession (deviceName : Option String)
  | invalidFromUnverifiedSession (deviceName : Option String)
  | undefinedSigStatus
deriving DecidableEq, Repr

/-- `sig.device ? sig.device.getDisplayName() || sig.device.deviceId : null`:
the display name falls back to the device id when null or empty. -/
def deviceName (sig : Sig) : Option String :=
  match sig.device with
  | some d =>
    some (match d.displayName with
          | some s => if s = "" then d.deviceId else s
          | none => d.deviceId)
  | none => none

/-- `sig.device && sig.device.getFingerprint() === cli.getDeviceEd25519Key()`. -/
def fromThisDevice (sig : Sig) (localDeviceKey : String) : Bool :=
  match sig.device with
  | some d => d.fingerprint == localDeviceKey
  | none => false

/-- `sig.crossSigningId && sig.deviceId === cli.getCrossSigningId()`.  Note
that the comparison is against `sig.deviceId`, not `sig.crossSigningId`:
for cross-signing signatures the `deviceId` field carries the signing key
identifier. -/
def fromThisUser (sig : Sig) (localCrossSigningId : String) : Bool :=
  sig.crossSigningId.isSome && sig.deviceId == localCrossSigningId

/-- Modelled from the spec: the predicate the spec ascribes to
`fromThisUser` ("sig.crossSigningId present AND sig.crossSigningId ==
localCrossSigningId"), kept separate so it can be compared against the
code's `fromThisUser`. -/
def specFromThisUser (sig : Sig) (localCrossSigningId : String) : Bool :=
  sig.crossSigningId.isSome && sig.crossSigningId == some localCrossSigningId

/-- The per-signature classification: the `if/else if` chain of `render`,
in source order, first match wins.  `undefinedSigStatus` is the value of
the fall-through where no branch assigns `sigStatus`. -/
def classify (sig : Sig) (localDeviceKey localCrossSigningId : String) : SigStatus :=
  if sig.valid && fromThisUser sig localCrossSigningId then .validFromThisUser
  else if !sig.valid && fromThisUser sig localCrossSigningId then .invalidFromThisUser
  else if sig.crossSigningId.isSome then .fromUnknownUser sig.deviceId
  else if sig.device.isNone then .fromUnknownSession sig.deviceId
  else if sig.valid && fromThisDevice sig localDeviceKey then .validFromThisSession
  else if !sig.valid && fromThisDevice sig localDeviceKey then .invalidFromThisSession
  else if sig.valid && sig.deviceVerified then .validFromVerifiedSession (deviceName sig)
  else if sig.valid && !sig.deviceVerified then .validFromUnverifiedSession (deviceName sig)
  else if !sig.valid && sig.deviceVerified then .invalidFromVerifiedSession (deviceName sig)
  else if !sig.valid && !sig.deviceVerified then .invalidFromUnverifiedSession (deviceName sig)
  else .undefinedSigStatus

/-- Modelled from the spec: the ten ordered (predicate, category) rules of
section 4.1, as a list, with `fromThisUser` and `fromThisDevice` taken as
the booleans the classifier computes. -/
def specRuleList (sig : Sig) (localDeviceKey localCrossSigningId : String) :
    List (Bool × SigStatus) :=
  [ (sig.valid && fromThisUser sig localCrossSigningId, .validFromThisUser),
    (!sig.valid && fromThisUser sig localCrossSigningId, .invalidFromThisUser),
    (sig.crossSigningId.isSome, .fromUnknownUser sig.deviceId),
    (sig.device.isNone, .fromUnknownSession sig.deviceId),
    (sig.valid && fromThisDevice sig localDeviceKey, .validFromThisSession),
    (!sig.valid && fromThisDevice sig localDeviceKey, .invalidFromThisSession),
    (sig.valid && sig.deviceVerified, .validFromVerifiedSession (deviceName sig)),
    (sig.valid && !sig.deviceVerified, .validFromUnverifiedSession (deviceName sig)),
    (!sig.valid && sig.deviceVerified, .invalidFromVerifiedSession (deviceName sig)),
    (!sig.valid && !sig.deviceVerified, .invalidFromUnverifiedSession (deviceName sig)) ]

/-- First-match-wins evaluation of an ordered rule list. -/
def firstMatch : List (Bool × SigStatus) → Option SigStatus
  | [] => none
  | (b, c) :: rest => if b then some c else firstMatch rest

/-- The aggregate signature display: `Backup is not signed by any of your
sessions` when `sigs` is empty, otherwise one classification per entry. -/
inductive AggregateSigStatus where
  | unsigned
  | perSignature (statuses : List SigStatus)
deriving DecidableEq, Repr

/-- `backupSigStatus.sigs.map(...)` replaced by the unsigned message when
`backupSigStatus.sigs.length === 0`. -/
def aggregateSigStatus (sigs : List Sig) (localDeviceKey localCrossSigningId : String) :
    AggregateSigStatus :=
  if sigs.length = 0 then .unsigned
  else .perSignature (sigs.map (fun s => classify s localDeviceKey localCrossSigningId))

/-! ### Proofs about the classifier -/

/-- Claim C1: for every signature, the classifier returns the first rule of
the section 4.1 ordered list whose predicate holds, never falls through to
an undefined category, and the aggregate of an empty signature sequence is
Unsigned. -/
theorem classifyIsFirstMatchOfOrderedRules (sig : Sig) (ldk lcs : String) :
    firstMatch (specRuleList sig ldk lcs) = some (classify sig ldk lcs) ∧
    classify sig ldk lcs ≠ SigStatus.undefinedSigStatus ∧
    aggregateSigStatus [] ldk lcs = AggregateSigStatus.unsigned := by
  refine ⟨?_, ?_, rfl⟩ <;>
  · simp only [specRuleList, firstMatch, classify]
    generalize fromThisUser sig lcs = u
    generalize fromThisDevice sig ldk = d
    generalize sig.crossSigningId.isSome = x
    generalize sig.device.isNone = dn
    generalize sig.valid = b
    generalize sig.deviceVerified = v
    cases b <;> cases v <;> cases u <;> cases d <;> cases x <;> cases dn <;> simp

/-! ## Action buttons pushed by `render` -/

/-- The four action buttons `render` can push onto `actions`. -/
inductive Action where
  | restore
  | delete
  | setupNewBackup
  | resetSecretStorage
deriving DecidableEq, Repr

/-- The externally supplied policy (`isSecureBackupRequired()`). -/
structure Policy where
  secureBackupRequired : Bool
deriving DecidableEq, Repr

/-- The `actions` array built by `render`: the `error` / `loading` /
`backupInfo` chain contributes restore (and delete unless secure backup is
required) or setup; the reset button is appended afterwards whenever
`secretStorageKeyInAccount` is truthy, outside that chain. -/
def actions (s : Snapshot) (p : Policy) : List Action :=
  (if s.error.isSome then []
   else if s.loading then []
   else if s.backupInfo.isSome then
     [Action.restore] ++ (if p.secureBackupRequired then [] else [Action.delete])
   else [Action.setupNewBackup])
  ++ (if s.secretStorageKeyInAccount = some true then [Action.resetSecretStorage] else [])

/-! ## Asynchronous continuations of the reconciler and operations

Each `async` method is modelled by the pure effect its continuation has on
the state once the awaited service calls settle.  The `unmounted`
parameter is the value of `this.unmounted` at the moment the continuation
runs; the service outcome is an `Except` value.  Where a method goes on to
call `loadBackupStatus`, the returned `Bool` records that a quick reload
was requested. -/

/-- The raw value `cli.crypto.getSessionBackupPrivateKey()` resolves with:
null, a `Uint8Array`, or some other truthy value. -/
inductive CachedKey where
  | absent
  | uint8Array
  | otherTruthy
deriving DecidableEq, Repr

/-- JavaScript truthiness of the cached key (`!!backupKeyFromCache`). -/
def CachedKey.truthy : CachedKey → Bool
  | .absent => false
  | _ => true

/-- `getUpdatedDiagnostics`: writes the five diagnostic fields unless the
component has unmounted by the time the fetches settle. -/
def getUpdatedDiagnostics (unmounted : Bool) (stored : Bool) (cachedKey : CachedKey)
    (hasKey ready : Bool) (s : Snapshot) : Snapshot :=
  if unmounted then s
  else
    { s with
      backupKeyStored := some stored
      backupKeyCached := some cachedKey.truthy
      backupKeyWellFormed := some (cachedKey = CachedKey.uint8Array)
      secretStorageKeyInAccount := some hasKey
      secretStorageReady := some ready }

/-- Continuation of `checkKeyBackupStatus` (the full check) once
`cli.checkKeyBackup()` settles.  The success branch calls `setState`
without consulting `unmounted`; only the catch branch is guarded. -/
def checkKeyBackupResume (unmounted : Bool)
    (result : Except ErrorInfo (BackupInfo × TrustInfo)) (s : Snapshot) : Snapshot :=
  match result with
  | .ok (bi, ti) =>
    { s with loading := false, error := none,
             backupInfo := some bi, backupSigStatus := some ti }
  | .error e =>
    if unmounted then s
    else { s with loading := false, error := some e,
                  backupInfo := none, backupSigStatus := none }

/-- `loadBackupStatus` starts by synchronously setting `loading: true`. -/
def loadBackupStatusStart (s : Snapshot) : Snapshot :=
  { s with loading := true }

/-- Continuation of `loadBackupStatus` (the quick reload) once
`getKeyBackupVersion()` and `isKeyBackupTrusted(backupInfo)` settle: the
version may be null while the trust evaluation still returns a value.
Both branches are guarded by `unmounted`. -/
def quickReloadResume (unmounted : Bool)
    (result : Except ErrorInfo (Option BackupInfo × TrustInfo)) (s : Snapshot) : Snapshot :=
  match result with
  | .ok (bi, ti) =>
    if unmounted then s
    else { s with loading := false, error := none,
                  backupInfo := bi, backupSigStatus := some ti }
  | .error e =>
    if unmounted then s
    else { s with loading := false, error := some e,
                  backupInfo := none, backupSigStatus := none }

/-- The whole of `loadBackupStatus`: set loading, run the diagnostics
refresh, then commit the fetched backup version and trust evaluation.
The diagnostics write races the main fetch in the source; the claims
proved below do not depend on that ordering, and it is sequenced first
here. -/
def loadBackupStatus (unmounted : Bool) (stored : Bool) (cachedKey : CachedKey)
    (hasKey ready : Bool) (result : Except ErrorInfo (Option BackupInfo × TrustInfo))
    (s : Snapshot) : Snapshot :=
  quickReloadResume unmounted result
    (getUpdatedDiagnostics unmounted stored cachedKey hasKey ready
      (loadBackupStatusStart s))

/-- `onKeyBackupSessionsRemaining`: the handler for
`SessionsRemainingChanged(n)`.  It only calls
`setState({ sessionsRemaining })`; the `Bool` records that no reload is
requested. -/
def onKeyBackupSessionsRemaining (n : Nat) (s : Snapshot) : Snapshot × Bool :=
  ({ s with sessionsRemaining := n }, false)

/-- The confirmed branch of `deleteBackup`: `onFinished(proceed)` returns
early unless the user proceeded, otherwise sets `loading: true` and issues
the deletion call (the returned `Bool` records whether it was issued). -/
def deleteBackupConfirm (proceed : Bool) (s : Snapshot) : Snapshot × Bool :=
  if proceed then ({ s with loading := true }, true) else (s, false)

/-- Continuation of the deletion call: the promise only has a `.then` that
triggers `loadBackupStatus`; there is no `.catch`, so a rejection changes
nothing and requests no reload. -/
def deleteBackupResume (result : Except ErrorInfo Unit) (s : Snapshot) : Snapshot × Bool :=
  match result with
  | .ok _ => (s, true)
  | .error _ => (s, false)

/-- `resetSecretStorage`: synchronously clears `error`, awaits
`accessSecretStorage(..., forceReset)`, stores a failure in `error` (when
still mounted), and finally requests `loadBackupStatus` (when still
mounted).  The `Bool` records whether the reload was requested. -/
def resetSecretStorage (unmounted : Bool) (result : Except ErrorInfo Unit)
    (s : Snapshot) : Snapshot × Bool :=
  let s1 := { s with error := none }
  match result with
  | .ok _ => if unmounted then (s1, false) else (s1, true)
  | .error e =>
    if unmounted then (s1, false)
    else ({ s1 with error := some e }, true)

/-- Concrete backup metadata used by closed test statements below. -/
def bi0 : BackupInfo where
  version := "1"
  algorithm := "m.megolm_backup.v1"

/-- Concrete trust info used by closed test statements below. -/
def ti0 : TrustInfo where
  sigs := []
  trusted_locally := false

/-- A signature carrying a cross-signing key identifier that matches the
local one while its deviceId field does not. -/
def sigXS : Sig where
  deviceId := "DEVICE_A"
  device := none
  crossSigningId := some "XSKEY"
  valid := true
  deviceVerified := false

/-- The snapshot right after a confirmed deletion has been issued from a
loaded state with a backup present. -/
def afterDeleteIssued : Snapshot :=
  (deleteBackupConfirm true { initialState with loading := false, backupInfo := some bi0 }).1

/-! ## Claims -/

/-- Claim C2 counterexample: on a signature whose crossSigningId equals the
local cross-signing identity but whose deviceId does not, the spec's
predicate for fromThisUser holds while the code's fromThisUser is false:
the code compares the deviceId field, not crossSigningId, with the local
cross-signing identity. -/
theorem specFromThisUserDisagreesWithCode :
    specFromThisUser sigXS "XSKEY" = true ∧ fromThisUser sigXS "XSKEY" = false := by
  constructor <;> rfl

/-- Claim C2 (amended): fromThisUser is true iff sig.crossSigningId is
present and sig.deviceId (which carries the signing key identifier for
cross-signing signatures) equals the local cross-signing identity;
fromThisDevice is true iff sig.device is present and its fingerprint
equals the local device identity key. -/
theorem fromThisUserAndDeviceCharacterised (sig : Sig) (ldk lcs : String) :
    (fromThisUser sig lcs = true ↔ sig.crossSigningId ≠ none ∧ sig.deviceId = lcs) ∧
    (fromThisDevice sig ldk = true ↔ ∃ d, sig.device = some d ∧ d.fingerprint = ldk) := by
  constructor
  · simp [fromThisUser, Option.isSome_iff_ne_none]
  · cases hd : sig.device <;> simp [fromThisDevice, hd]

/-- Claim C3 counterexample: a quick reload that succeeds while
getKeyBackupVersion returns null commits a snapshot with trustInfo
present, backupInfo absent, and no error, because the trust evaluation
still returns a value for a null backup version. -/
theorem trustInfoPresentWithoutBackupInfo :
    (quickReloadResume false (Except.ok (none, ti0)) initialState).backupSigStatus.isSome = true ∧
    (quickReloadResume false (Except.ok (none, ti0)) initialState).backupInfo = none ∧
    (quickReloadResume false (Except.ok (none, ti0)) initialState).error = none := by
  refine ⟨rfl, rfl, rfl⟩

/-- Claim C3 (amended): in every snapshot produced by a completed refresh
with the component still mounted, trustInfo is present iff error is
absent; backupInfo may be absent while trustInfo is present. -/
theorem trustInfoPresentIffNoError :
    (∀ (r : Except ErrorInfo (BackupInfo × TrustInfo)) (s : Snapshot),
      (checkKeyBackupResume false r s).backupSigStatus.isSome =
        (checkKeyBackupResume false r s).error.isNone) ∧
    (∀ (r : Except ErrorInfo (Option BackupInfo × TrustInfo)) (s : Snapshot),
      (quickReloadResume false r s).backupSigStatus.isSome =
        (quickReloadResume false r s).error.isNone) := by
  constructor <;> intro r s <;>
    cases r <;> simp [checkKeyBackupResume, quickReloadResume]

/-- Claim C4 (code bug): the success continuation of the full check writes
the snapshot even when the component has already unmounted, because the
success branch of checkKeyBackupStatus has no unmounted guard.  Evaluated
at the failing input: a full check resolving successfully post-teardown
mutates the snapshot. -/
theorem fullCheckSuccessWritesAfterTeardown :
    checkKeyBackupResume true (Except.ok (bi0, ti0)) initialState ≠ initialState ∧
    (checkKeyBackupResume true (Except.ok (bi0, ti0)) initialState).backupInfo = some bi0 := by
  refine ⟨?_, rfl⟩
  intro h
  have hb := congrArg Snapshot.backupInfo h
  simp [checkKeyBackupResume, initialState] at hb

/-- Claim C5 counterexample: with a backup present but the snapshot still
loading (as during any quick reload), the delete action is absent even
though secure backup is not required. -/
theorem deleteAbsentWhileLoading :
    Action.delete ∉ actions { initialState with backupInfo := some bi0 } ⟨false⟩ := by
  decide

/-- Claim C5 (amended): whenever backupInfo is present, error is absent,
and loading is false, the delete action is present iff secureBackupRequired
is false. -/
theorem deletePresentIffNotRequired (s : Snapshot) (p : Policy)
    (hb : s.backupInfo.isSome = true) (he : s.error = none) (hl : s.loading = false) :
    Action.delete ∈ actions s p ↔ p.secureBackupRequired = false := by
  simp only [actions, he, hl, hb]
  split_ifs <;> simp_all

/-- Witness for the amended C5 theorem at a concrete snapshot and policy. -/
theorem deletePresentIffNotRequired_witness :
    Action.delete ∈ actions { initialState with loading := false, backupInfo := some bi0 } ⟨false⟩ ↔
      false = false :=
  deletePresentIffNotRequired _ _ (by decide) (by decide) (by decide)

/-- Claim C6: the reset-secret-storage action is in the derived action set
iff secretStorageKeyInAccount is truthy, for every snapshot (hence all
combinations of error, loading, and backupInfo) and every policy. -/
theorem resetPresentIffKeyInAccount (s : Snapshot) (p : Policy) :
    Action.resetSecretStorage ∈ actions s p ↔ s.secretStorageKeyInAccount = some true := by
  unfold actions
  split_ifs <;> simp_all

/-- Claim C7 counterexample: a failed deletion call leaves the snapshot
unchanged and requests no reload: the rejection is not captured in error
(which stays none) and loading remains stuck true. -/
theorem deleteFailureLeavesSnapshotAndNoReload :
    deleteBackupResume (Except.error "boom") afterDeleteIssued = (afterDeleteIssued, false) ∧
    afterDeleteIssued.error = none ∧
    afterDeleteIssued.loading = true := by
  refine ⟨rfl, rfl, rfl⟩

/-- Claim C7 (amended): a reset failure with the component still mounted is
absorbed into error and is still followed by a quick reload, but a delete
failure is neither absorbed nor followed by a reload; only a successful
delete triggers the reload. -/
theorem resetFailureAbsorbedDeleteFailureNot (s : Snapshot) (e : ErrorInfo) :
    (resetSecretStorage false (Except.error e) s).1.error = some e ∧
    (resetSecretStorage false (Except.error e) s).2 = true ∧
    deleteBackupResume (Except.error e) s = (s, false) ∧
    deleteBackupResume (Except.ok ()) s = (s, true) := by
  refine ⟨rfl, rfl, rfl, rfl⟩

/-- Claim C8: handling SessionsRemainingChanged(n) sets sessionsRemaining
to n, leaves every other snapshot field unchanged, and requests no
reload. -/
theorem sessionsRemainingChangedFrame (n : Nat) (s : Snapshot) :
    (onKeyBackupSessionsRemaining n s).1.sessionsRemaining = n ∧
    (onKeyBackupSessionsRemaining n s).1.loading = s.loading ∧
    (onKeyBackupSessionsRemaining n s).1.error = s.error ∧
    (onKeyBackupSessionsRemaining n s).1.backupKeyStored = s.backupKeyStored ∧
    (onKeyBackupSessionsRemaining n s).1.backupKeyCached = s.backupKeyCached ∧
    (onKeyBackupSessionsRemaining n s).1.backupKeyWellFormed = s.backupKeyWellFormed ∧
    (onKeyBackupSessionsRemaining n s).1.secretStorageKeyInAccount = s.secretStorageKeyInAccount ∧
    (onKeyBackupSessionsRemaining n s).1.secretStorageReady = s.secretStorageReady ∧
    (onKeyBackupSessionsRemaining n s).1.backupInfo = s.backupInfo ∧
    (onKeyBackupSessionsRemaining n s).1.backupSigStatus = s.backupSigStatus ∧
    (onKeyBackupSessionsRemaining n s).2 = false := by
  refine ⟨rfl, rfl, rfl, rfl, rfl, rfl, rfl, rfl, rfl, rfl, rfl⟩

/-- Claim C9: the constructor state has loading true, error null,
sessionsRemaining 0, and backupInfo, trustInfo, and all five boolean
diagnostics fields null rather than false. -/
theorem initialStateFields :
    initialState.loading = true ∧ initialState.error = none ∧
    initialState.sessionsRemaining = 0 ∧ initialState.backupInfo = none ∧
    initialState.backupSigStatus = none ∧ initialState.backupKeyStored = none ∧
    initialState.backupKeyCached = none ∧ initialState.backupKeyWellFormed = none ∧
    initialState.secretStorageKeyInAccount = none ∧ initialState.secretStorageReady = none := by
  refine ⟨rfl, rfl, rfl, rfl, rfl, rfl, rfl, rfl, rfl, rfl⟩

/-- Claim C10: when the external reset fails (error captured, reload still
requested) and the subsequent quick reload succeeds with the component
still mounted, the final error field is null: the captured reset error is
overwritten, whatever the diagnostics and fetched backup data are. -/
theorem resetErrorOverwrittenBySubsequentReload (s : Snapshot) (e : ErrorInfo)
    (stored : Bool) (k : CachedKey) (hasKey ready : Bool)
    (v : Option BackupInfo) (t : TrustInfo) :
    (resetSecretStorage false (Except.error e) s).1.error = some e ∧
    (resetSecretStorage false (Except.error e) s).2 = true ∧
    (loadBackupStatus false stored k hasKey ready (Except.ok (v, t))
        (resetSecretStorage false (Except.error e) s).1).error = none := by
  refine ⟨rfl, rfl, ?_⟩
  cases k <;> rfl

end SecureBackupPanel
